import Mathlib

/-!
Verification development for the TRA questionnaire backend.

Shallow embedding of the two core modules:
  backend/tools/question_tools.py   (applicability evaluator + question flow)
  code/variants/enterprise/orchestrator.py   (dialogue router)

Python dicts are modelled as insertion-ordered association lists
(`List (String × _)`); updating an existing key replaces its value in
place, a new key is appended, matching CPython dict semantics.  Answer
values (strings or lists of option values) are modelled by `Ans`.
Machine floats only appear in `round(x, 1)`; that rounding is modelled
exactly over `ℚ` with round-half-to-even, Python's rounding mode.
The DynamoDB store is modelled as an association list of assessments;
`update_assessment` merges fields into the stored item (the in-memory
branch of `DynamoDBService.update_assessment` does `item.update(updates)`).
-/

set_option autoImplicit false

namespace TRA

/-- An answer value: Python stores either a string or a list of option values. -/
inductive Ans where
  | s (v : String)
  | l (vs : List String)
deriving DecidableEq

/-- ASCII lowercasing of one character (`str.lower` on the ASCII strings the
catalog and router work with). -/
def pyLowerChar (c : Char) : Char :=
  if 'A' ≤ c && c ≤ 'Z' then Char.ofNat (c.toNat + 32) else c

def pyUpperChar (c : Char) : Char :=
  if 'a' ≤ c && c ≤ 'z' then Char.ofNat (c.toNat - 32) else c

def pyLower (s : String) : String := String.mk (s.data.map pyLowerChar)

/-- Python's whitespace class for `str.strip`/`str.split` and the regex `\s`. -/
def isPySpace (c : Char) : Bool :=
  c == ' ' || c == '\t' || c == '\n' || c == '\r' || c == Char.ofNat 11 || c == Char.ofNat 12

/-- Python `str.strip()`. -/
def pyStrip (s : String) : String :=
  String.mk (((s.data.dropWhile isPySpace).reverse.dropWhile isPySpace).reverse)

def pyStartsWith (s w : String) : Bool := w.data.isPrefixOf s.data

/-- Python `str.split(',')` (every comma splits; empty input gives [""]). -/
def splitCommaAux : List Char → List Char → List String
  | [], acc => [String.mk acc.reverse]
  | c :: rest, acc =>
    if c = ',' then String.mk acc.reverse :: splitCommaAux rest []
    else splitCommaAux rest (c :: acc)

def pySplitComma (s : String) : List String := splitCommaAux s.data []

/-- Numeric value of a digit string (Python `int` on a digit-only string). -/
def digitsToNat (cs : List Char) : Nat :=
  cs.foldl (fun n c => n * 10 + (c.toNat - 48)) 0

/-- The apostrophe character, used by Python's repr of string lists. -/
def apos : String := String.singleton (Char.ofNat 39)

def pyReprStr (v : String) : String := apos ++ v ++ apos

def joinCommaSep : List String → String
  | [] => ""
  | [x] => x
  | x :: rest => x ++ ", " ++ joinCommaSep rest

/-- Python str() of an answer value: strings render as themselves, lists render
as a bracketed, comma separated list of quoted items. -/
def pyStr : Ans → String
  | .s v => v
  | .l vs => "[" ++ joinCommaSep (vs.map pyReprStr) ++ "]"

/-- Python truthiness of an answer value (empty string and empty list are falsy). -/
def ansTruthy : Ans → Bool
  | .s v => v ≠ ""
  | .l vs => vs ≠ []

/-- Python truthiness of an optional string (None and the empty string are falsy). -/
def optStrTruthy : Option String → Bool
  | none => false
  | some v => v ≠ ""

/-- Dict lookup on an insertion-ordered association list. -/
def alookup {α : Type} : List (String × α) → String → Option α
  | [], _ => none
  | (k2, v) :: rest, k => if k2 = k then some v else alookup rest k

/-- Dict update: replace the value of an existing key in place, append a new key. -/
def dinsert {α : Type} : List (String × α) → String → α → List (String × α)
  | [], k, v => [(k, v)]
  | (k2, v2) :: rest, k, v =>
    if k2 = k then (k, v) :: rest else (k2, v2) :: dinsert rest k v

structure OptionItem where
  label : String := ""
  value : String := ""
deriving DecidableEq

structure DependsOn where
  question_id : String := ""
  answer : Ans := .s ""
deriving DecidableEq

structure Condition where
  question_id : String := ""
  operator : String := ""
  value : Ans := .s ""
deriving DecidableEq

structure SkipDirective where
  action : String := ""
  skip_questions : List String := []
  risk_area : String := ""
deriving DecidableEq

structure Question where
  id : String := ""
  risk_area : String := ""
  qtype : String := "text"
  required : Bool := true
  options : List OptionItem := []
  question : String := ""
  help_text : String := ""
  level : String := "L2"
  depends_on : Option DependsOn := none
  conditions : List Condition := []
  on_yes : Option SkipDirective := none
  on_no : Option SkipDirective := none
  show_questions : List String := []
deriving DecidableEq

structure RiskAreaData where
  name : Option String := none
  questions : List Question := []
deriving DecidableEq

structure DecisionTree where
  questions : List Question := []
  risk_areas : List (String × RiskAreaData) := []
  qualifying_questions : List Question := []
deriving DecidableEq

structure Assessment where
  active_risk_areas : List String := []
  current_risk_area : Option String := none
  current_question_id : Option String := none
  answers_by_risk_area : List (String × List (String × Ans)) := []
  completion_percentage : ℚ := 0
  skipped_questions : List String := []
deriving DecidableEq

/-- Substring test, Python's `needle in hay`. -/
def containsSubAux (needle : List Char) : List Char → Bool
  | [] => needle.isPrefixOf []
  | c :: rest => needle.isPrefixOf (c :: rest) || containsSubAux needle rest

def containsSub (hay needle : String) : Bool := containsSubAux needle.data hay.data

/-- `_evaluate_conditions`: every condition must hold; a condition whose
referenced question is unanswered fails.  `greater_than`/`less_than` are
modelled for string answers only (on a list Python would raise TypeError,
which the callers' outer handlers turn into an error result). -/
def evaluate_conditions (conditions : List Condition) (answers : List (String × Ans)) : Bool :=
  conditions.all fun c =>
    match alookup answers c.question_id with
    | none => false
    | some av =>
      if c.operator = "equals" then av == c.value
      else if c.operator = "contains" then
        (match c.value with
         | .s v => containsSub (pyStr av) v
         | .l _ => false)
      else if c.operator = "not_equals" then !(av == c.value)
      else if c.operator = "greater_than" then
        (match av, c.value with
         | .s a, .s b => decide (b < a)
         | _, _ => false)
      else if c.operator = "less_than" then
        (match av, c.value with
         | .s a, .s b => decide (a < b)
         | _, _ => false)
      else true

/-- Answer comparison used by `_evaluate_depends_on`: case-insensitive when
both sides are strings, plain equality otherwise. -/
def depends_answer_eq (actual required : Ans) : Bool :=
  match actual, required with
  | .s a, .s b => pyLower a == pyLower b
  | a, b => a == b

/-- `_evaluate_depends_on`. -/
def evaluate_depends_on (q : Question) (answers : List (String × Ans)) : Bool :=
  match q.depends_on with
  | none => true
  | some d =>
    if d.question_id = "" then true
    else
      match alookup answers d.question_id with
      | none => false
      | some actual => depends_answer_eq actual d.answer

/-- `_get_skipped_questions`. -/
def get_skipped_questions (question_id : String) (answer : Ans) (tree : DecisionTree) :
    List String :=
  match tree.questions.find? (fun q => q.id == question_id) with
  | none => []
  | some q =>
    let yesPart :=
      if ansTruthy answer && ["yes", "y", "true"].contains (pyLower (pyStr answer)) then
        match q.on_yes with
        | some d => if d.action == "skip_questions" then d.skip_questions else []
        | none => []
      else []
    let noPart :=
      if ansTruthy answer && ["no", "n", "false"].contains (pyLower (pyStr answer)) then
        match q.on_no with
        | some d => if d.action == "skip_questions" then d.skip_questions else []
        | none => []
      else []
    yesPart ++ noPart

/-- `_check_show_questions_dependency`. -/
def check_show_questions_dependency (q : Question) (all_questions : List Question)
    (answers : List (String × Ans)) : Bool :=
  let parent_questions := (all_questions.filter fun p => p.show_questions.contains q.id).map
    fun p => p.id
  if parent_questions.isEmpty then true
  else parent_questions.any fun pid => (alookup answers pid).isSome

/-- `_should_show_question`. -/
def should_show_question (q : Question) (answers : List (String × Ans))
    (skipped_ids : List String) (all_questions : List Question) : Bool :=
  if (alookup answers q.id).isSome then false
  else if skipped_ids.contains q.id then false
  else if !(evaluate_depends_on q answers) then false
  else if !q.conditions.isEmpty && !(evaluate_conditions q.conditions answers) then false
  else if !all_questions.isEmpty && !(check_show_questions_dependency q all_questions answers)
    then false
  else true

/-- Questions of a risk area: the global flat list filtered by owning area,
falling back to the questions embedded in the risk_areas dict. -/
def questions_for (tree : DecisionTree) (risk_area : String) : List Question :=
  let qs := tree.questions.filter fun q => q.risk_area == risk_area
  if qs.isEmpty then
    match alookup tree.risk_areas risk_area with
    | some d => d.questions
    | none => []
  else qs

/-- The skip list derived from a full answer set (the aggregation loop shared by
`question_flow` step 3 and `_count_applicable_questions`). -/
def derive_skip_list (answers : List (String × Ans)) (tree : DecisionTree) : List String :=
  answers.foldl (fun acc p => acc ++ get_skipped_questions p.1 p.2 tree) []

/-- The per-question applicability test inside `_count_applicable_questions`. -/
def count_pred (q : Question) (answers : List (String × Ans)) (skipped : List String)
    (area_questions : List Question) : Bool :=
  if skipped.contains q.id then false
  else if (match q.depends_on with
           | some d =>
             (d.question_id ≠ "" && (alookup answers d.question_id).isNone) ||
               !(evaluate_depends_on q answers)
           | none => false) then false
  else if !q.conditions.isEmpty &&
      (!(q.conditions.all fun c => (alookup answers c.question_id).isSome) ||
        !(evaluate_conditions q.conditions answers)) then false
  else if !(check_show_questions_dependency q area_questions answers) then false
  else true

/-- The counting loop of `_count_applicable_questions`. -/
def count_loop (answers : List (String × Ans)) (skipped : List String)
    (area_questions : List Question) : List Question → Nat × Nat
  | [] => (0, 0)
  | q :: rest =>
    let acc := count_loop answers skipped area_questions rest
    if count_pred q answers skipped area_questions then
      (acc.1 + 1, if (alookup answers q.id).isSome then acc.2 + 1 else acc.2)
    else acc

/-- `_count_applicable_questions`, returning (applicable_count, answered_count). -/
def count_applicable_questions (risk_area : String) (answers : List (String × Ans))
    (tree : DecisionTree) : Nat × Nat :=
  let questions := questions_for tree risk_area
  let skipped := derive_skip_list answers tree
  count_loop answers skipped questions questions

/-- Round-half-to-even to an integer, Python's rounding mode for `round`. -/
def roundHalfEven (x : ℚ) : ℤ :=
  let f : ℤ := ⌊x⌋
  let r : ℚ := x - f
  if r < 1 / 2 then f
  else if 1 / 2 < r then f + 1
  else if f % 2 = 0 then f else f + 1

/-- Python `round(x, 1)` modelled exactly over the rationals. -/
def pyRound1 (x : ℚ) : ℚ := (roundHalfEven (x * 10) : ℚ) / 10

/-- The (total_applicable, total_answered) accumulation across active risk areas
performed after every answer save in `question_flow`. -/
def completion_totals (active : List String)
    (all_answers : List (String × List (String × Ans))) (tree : DecisionTree) : Nat × Nat :=
  match active with
  | [] => (0, 0)
  | area :: rest =>
    let c := count_applicable_questions area ((alookup all_answers area).getD []) tree
    let r := completion_totals rest all_answers tree
    (c.1 + r.1, c.2 + r.2)

/-- The overall completion percentage `question_flow` persists on every answer
save: `round((total_answered / total_applicable) * 100, 1)`, and 0 when no
question is applicable. -/
def compute_overall_completion (active : List String)
    (all_answers : List (String × List (String × Ans))) (tree : DecisionTree) : ℚ :=
  let t := completion_totals active all_answers tree
  if t.1 > 0 then pyRound1 ((t.2 : ℚ) / (t.1 : ℚ) * 100) else 0

/-- The answer normalization step of `question_flow` (lines 246-281): raw answer
for text questions, option matching for select, per-token option matching with
silent dropping of unmatched tokens for multiselect. -/
def normalize_answer (q : Question) (answer : Ans) : Ans :=
  if q.qtype == "multiselect" then
    let answer_list : List String :=
      match answer with
      | .s v => (pySplitComma v).map (fun a => pyStrip a)
      | .l vs => vs
    .l (answer_list.filterMap fun a =>
      let al := pyStrip (pyLower a)
      (q.options.find? fun opt => pyLower opt.value == al || pyLower opt.label == al).map
        fun opt => opt.value)
  else if q.qtype == "select" then
    let al := pyStrip (pyLower (pyStr answer))
    match q.options.find? (fun opt => pyLower opt.value == al || pyLower opt.label == al) with
    | some opt => .s opt.value
    | none => answer
  else answer

/-- The hardcoded risk-area-name-to-id map of the auto-trigger step, with its
lowercase-and-underscore fallback. -/
def risk_area_map_lookup (name : String) : String :=
  if name == "Third Party" then "third_party"
  else if name == "Data Privacy" then "data_privacy"
  else if name == "Artificial Intelligence" then "artificial_intelligence"
  else if name == "AI" then "artificial_intelligence"
  else if name == "Intellectual Property" then "intellectual_property"
  else if name == "IP" then "intellectual_property"
  else String.mk ((pyLower name).data.map fun c => if c = ' ' then '_' else c)

/-- The persisted assessments, keyed by assessment id. -/
abbrev Store := List (String × Assessment)

/-- `update_assessment`: merge the given field updates into the stored item.
Every call in `question_flow` happens after a successful read of the same id,
so the missing-id branch (a KeyError in the service) is never reached there. -/
def supdate : Store → String → (Assessment → Assessment) → Store
  | [], _, _ => []
  | (k2, v) :: rest, aid, f =>
    if k2 = aid then (k2, f v) :: supdate rest aid f
    else (k2, v) :: supdate rest aid f

structure NextQuestion where
  question_id : String
  question : String
  qtype : String
  required : Bool
  options : List OptionItem
  help_text : String
  risk_area : String
  level : String
deriving DecidableEq

/-- The outcome of a `question_flow` call.  The human-readable saved/progress
message strings are not modelled; error results keep their source text. -/
inductive QFResult where
  | failure (error : String)
  | ok (completed : Bool) (next : Option NextQuestion)
deriving DecidableEq

def QFResult.isError : QFResult → Bool
  | .failure _ => true
  | .ok _ _ => false

/-- Risk-area resolution at the top of `question_flow` (lines 194-211): prefer a
truthy argument that is an active area, fall back to the stored current area,
then to the first active area; `none` means the "no risk area" error. -/
def resolve_risk_area (assessment : Assessment) (risk_area_arg : Option String) :
    Option String :=
  let ra0 := if !(optStrTruthy risk_area_arg) then assessment.current_risk_area
    else risk_area_arg
  let ra1 := if optStrTruthy ra0 && !(assessment.active_risk_areas.contains (ra0.getD "")) then
    assessment.active_risk_areas.head? else ra0
  let ra2 := if !(optStrTruthy ra1) then assessment.active_risk_areas.head? else ra1
  if optStrTruthy ra2 then ra2 else none

/-- Step 3 of `question_flow`: rebuild the skip list from the answer set,
persist it, and scan the area's questions in catalog order for the first one
`_should_show_question` accepts, persisting it as the current question. -/
def question_flow_step3 (store : Store) (assessment_id ra : String)
    (answers : List (String × Ans)) (tree : DecisionTree) : QFResult × Store :=
  let questions := questions_for tree ra
  let skipped := derive_skip_list answers tree
  let store1 := supdate store assessment_id fun a => { a with skipped_questions := skipped }
  match questions.find? (fun q => should_show_question q answers skipped questions) with
  | some q =>
    let store2 := supdate store1 assessment_id fun a =>
      { a with current_question_id := some q.id, current_risk_area := some ra }
    let nq : NextQuestion :=
      { question_id := q.id, question := q.question, qtype := q.qtype,
        required := q.required, options := q.options, help_text := q.help_text,
        risk_area := q.risk_area, level := q.level }
    (.ok false (some nq), store2)
  | none => (.ok true none, store1)

/-- Step 2.5 of `question_flow` (lines 286-314): when a qualifying question
(id prefix "C-") is answered with a yes-equivalent and declares an on_yes
`show_all_questions` trigger, attach the named risk area to the assessment
if it is not already active. -/
def auto_trigger_store (store1 : Store) (assessment_id question_id : String)
    (normalized : Ans) (active_risk_areas : List String) (tree : DecisionTree) : Store :=
  if pyStartsWith question_id "C-" &&
      ["yes", "y", "true"].contains (pyLower (pyStr normalized)) then
    match tree.qualifying_questions.find? (fun q => q.id == question_id) with
    | some qq =>
      match qq.on_yes with
      | some on_yes =>
        if on_yes.action == "show_all_questions" then
          let ra_id := risk_area_map_lookup on_yes.risk_area
          if !(active_risk_areas.contains ra_id) then
            supdate store1 assessment_id fun a =>
              { a with active_risk_areas := active_risk_areas ++ [ra_id] }
          else store1
        else store1
      | none => store1
    | none => store1
  else store1

/-- The answer-saving phase of `question_flow` (lines 219-341), entered with the
current risk area already persisted in `store1`.  `all_answers` and `answers`
are the (aliased) local dicts read from the pre-call assessment.  Mirrors the
aliasing of the Python code: the completion totals see the new answer only if
the risk area already had an answers dict. -/
def question_flow_save (store1 : Store) (assessment_id ra : String)
    (assessment : Assessment) (ans : Ans) (tree : DecisionTree) : QFResult × Store :=
  let all_answers := assessment.answers_by_risk_area
  let answers := (alookup all_answers ra).getD []
  if !(optStrTruthy assessment.current_question_id) then
    (.failure "No active question to answer. Call with answer=None first.", store1)
  else
    let question_id := assessment.current_question_id.getD ""
    let questions := questions_for tree ra
    match questions.find? (fun q => q.id == question_id) with
    | none => (.failure "Question not found", store1)
    | some question =>
      if question.required && (ans == Ans.s "" || ans == Ans.l []) then
        (.failure "This question is required", store1)
      else
        let normalized := normalize_answer question ans
        let answers1 := dinsert answers question_id normalized
        let store2 := auto_trigger_store store1 assessment_id question_id normalized
          assessment.active_risk_areas tree
        match alookup store2 assessment_id with
        | none => (.failure "assessment vanished", store2)
        | some assessment2 =>
          let active2 := assessment2.active_risk_areas
          let all_answers_view :=
            if (alookup all_answers ra).isSome then dinsert all_answers ra answers1
            else all_answers
          let completion := compute_overall_completion active2 all_answers_view tree
          let all_answers2 := dinsert all_answers ra answers1
          let store3 := supdate store2 assessment_id fun a =>
            { a with answers_by_risk_area := all_answers2,
                     completion_percentage := completion,
                     current_question_id := none,
                     current_risk_area := some ra }
          question_flow_step3 store3 assessment_id ra answers1 tree

/-- The `question_flow` tool: load the assessment, resolve and persist the
target risk area, optionally validate/normalize/save the answer and recompute
the overall completion, then derive the next eligible question. -/
def question_flow (store : Store) (assessment_id : String) (risk_area_arg : Option String)
    (answer : Option Ans) (tree : DecisionTree) : QFResult × Store :=
  match alookup store assessment_id with
  | none => (.failure "Assessment not found", store)
  | some assessment =>
    match resolve_risk_area assessment risk_area_arg with
    | none => (.failure "No risk area specified and no active risk areas in assessment", store)
    | some ra =>
      let store1 := supdate store assessment_id fun a => { a with current_risk_area := some ra }
      match answer with
      | none =>
        question_flow_step3 store1 assessment_id ra
          ((alookup assessment.answers_by_risk_area ra).getD []) tree
      | some ans => question_flow_save store1 assessment_id ra assessment ans tree

/-!
Dialogue router (`EnterpriseOrchestratorAgent`).  The Python regular
expressions the router applies to the (lowercased) message are modelled by
explicit scanners over the character list with the same matching semantics:
a word character is `[A-Za-z0-9_]`, and a word-boundary occurrence of a
keyword needs a non-word character (or the string edge) on each side.
-/

def isWordChar (c : Char) : Bool := c.isAlphanum || c == '_'

def boundaryOk : Option Char → Bool
  | none => true
  | some c => !(isWordChar c)

def afterOk : List Char → Bool
  | [] => true
  | c :: _ => !(isWordChar c)

/-- Generic regex-search scanner: try the predicate at every suffix, tracking
the character just before the suffix for word-boundary tests. -/
def scanSearch (p : Option Char → List Char → Bool) : Option Char → List Char → Bool
  | prev, [] => p prev []
  | prev, c :: rest => p prev (c :: rest) || scanSearch p (some c) rest

/-- Word-boundary occurrence of `w` anywhere in `s`, i.e. `re.search(r"\bw\b", s)`. -/
def containsWord (s w : String) : Bool :=
  scanSearch (fun prev suf =>
    boundaryOk prev && w.data.isPrefixOf suf && afterOk (suf.drop w.length)) none s.data

/-- The finalize routing pattern `\b(finali[sz]e|submit)(\s+(assessment|tra))?\b`:
the optional tail never changes whether the search succeeds, so this is a
word-boundary search for the three keywords. -/
def matchesFinalize (s : String) : Bool :=
  containsWord s "finalize" || containsWord s "finalise" || containsWord s "submit"

/-- One-or-more whitespace characters; returns the remainder after the run. -/
def dropSpacesOne (s : List Char) : Option (List Char) :=
  match s with
  | c :: rest => if isPySpace c then some (rest.dropWhile isPySpace) else none
  | [] => none

/-- Occurrence of `w` with an optional plural `s` followed by a word boundary,
i.e. the regex fragment `ws?\b` anchored at the head of the suffix. -/
def nounHit (w : List Char) (s : List Char) : Bool :=
  (let w2 := w ++ ['s']
   w2.isPrefixOf s && afterOk (s.drop w2.length)) ||
  (w.isPrefixOf s && afterOk (s.drop w.length))

def reviewNoun (s : List Char) : Bool := nounHit "answer".data s || nounHit "response".data s

def reviewAfterSpaces (rest : List Char) : Bool :=
  reviewNoun rest ||
  ("my".data.isPrefixOf rest &&
    (match dropSpacesOne (rest.drop 2) with
     | some rest2 => reviewNoun rest2
     | none => false))

/-- The review routing pattern `\b(review|show|display)\s+(my\s+)?(answers?|responses?)\b`. -/
def matchesReview (s : String) : Bool :=
  scanSearch (fun prev suf =>
    boundaryOk prev &&
      (["review", "show", "display"].any fun w =>
        w.data.isPrefixOf suf &&
          (match dropSpacesOne (suf.drop w.length) with
           | some rest => reviewAfterSpaces rest
           | none => false))) none s.data

/-- The entity alternation of the list-request pattern:
`(assessments?|documents?|files?|knowledge\s*base|kb\s*items?)\b` anchored at
the head of the suffix. -/
def listEntityHit (s : List Char) : Bool :=
  nounHit "assessment".data s || nounHit "document".data s || nounHit "file".data s ||
  ("knowledge".data.isPrefixOf s &&
    (let r := (s.drop 9).dropWhile isPySpace
     "base".data.isPrefixOf r && afterOk (r.drop 4))) ||
  ("kb".data.isPrefixOf s &&
    (let r := (s.drop 2).dropWhile isPySpace
     nounHit "item".data r))

/-- The list-request pattern
`\b(list|show|display|enumerate|get all)\s+(assessments?|...)\b` of
`invoke_async` line 737. -/
def matchesListRequest (s : String) : Bool :=
  scanSearch (fun prev suf =>
    boundaryOk prev &&
      (["list", "show", "display", "enumerate", "get all"].any fun w =>
        w.data.isPrefixOf suf &&
          (match dropSpacesOne (suf.drop w.length) with
           | some rest => listEntityHit rest
           | none => false))) none s.data

/-- `re.search(r"knowledge\s*base|kb\s*items?", s)`. -/
def kbHit (s : String) : Bool :=
  scanSearch (fun _ suf =>
    ("knowledge".data.isPrefixOf suf &&
      "base".data.isPrefixOf ((suf.drop 9).dropWhile isPySpace)) ||
    ("kb".data.isPrefixOf suf &&
      "item".data.isPrefixOf ((suf.drop 2).dropWhile isPySpace))) none s.data

/-- Word-boundary search for `w` seeded with a known previous character,
used for `.*\bw` fragments (the dot does not cross newlines, so the caller
passes the current line segment). -/
def searchWordIn (w : List Char) (prev : Option Char) (s : List Char) : Bool :=
  scanSearch (fun p suf => boundaryOk p && w.isPrefixOf suf) prev s

/-- `\b(start|begin|answer)\b.*\bquestion` or `\bquestion.*\b(start|begin)`
(orchestrator line 339). -/
def matchesStartQuestion (s : String) : Bool :=
  scanSearch (fun prev suf =>
    boundaryOk prev &&
      (["start", "begin", "answer"].any fun w =>
        w.data.isPrefixOf suf && afterOk (suf.drop w.length) &&
          (let rest := (suf.drop w.length).takeWhile fun c => c ≠ '\n'
           searchWordIn "question".data (some 'x') rest))) none s.data ||
  scanSearch (fun prev suf =>
    boundaryOk prev && "question".data.isPrefixOf suf &&
      (let rest := (suf.drop 8).takeWhile fun c => c ≠ '\n'
       ["start", "begin"].any fun w => searchWordIn w.data (some 'n') rest)) none s.data

/-- `\b(ready|proceed|continue|move)\b.*(next|forward|ahead)` (line 333). -/
def matchesReadyNext (s : String) : Bool :=
  scanSearch (fun prev suf =>
    boundaryOk prev &&
      (["ready", "proceed", "continue", "move"].any fun w =>
        w.data.isPrefixOf suf && afterOk (suf.drop w.length) &&
          (let rest := (suf.drop w.length).takeWhile fun c => c ≠ '\n'
           ["next", "forward", "ahead"].any fun w2 => containsSubAux w2.data rest))) none s.data

/-- Python `str.isdigit` restricted to ASCII digits. -/
def strIsDigit (s : String) : Bool := s ≠ "" && s.data.all Char.isDigit

/-- Word count of Python `message.split()` (split on whitespace runs). -/
def pyWordCountAux : List Char → Bool → Nat
  | [], _ => 0
  | c :: rest, inWord =>
    if isPySpace c then pyWordCountAux rest false
    else if inWord then pyWordCountAux rest true
    else pyWordCountAux rest true + 1

def pyWordCount (s : String) : Nat := pyWordCountAux s.data false

/-- The shared turn context.  Flags hold the Python truthiness of the stored
value; list/str fields default to their falsy values.  Bookkeeping entries the
router writes but never branches on (`intent_extraction`,
`clarification_needed`, ...) are not modelled. -/
structure Context where
  session_id : Option String := none
  assessment_id : Option String := none
  qualifying_questions_mode : Bool := false
  awaiting_risk_area_selection : Bool := false
  remaining_risk_area_ids : List String := []
  available_risk_areas : List String := []
  waiting_for_project_name : Bool := false
  missing_fields : List String := []
  last_routed_agent : Option String := none
  last_message : String := ""
deriving DecidableEq

inductive AgentType where
  | assessment | document | question | status
deriving DecidableEq

/-- `_get_agent_by_type`: unknown types fall back to the assessment agent. -/
def get_agent_by_type (t : String) : AgentType :=
  if t == "assessment" then .assessment
  else if t == "document" then .document
  else if t == "question" then .question
  else if t == "status" then .status
  else .assessment

/-- Outcome of `_determine_agent`.  `slm` marks that the flow reaches the
LLM-classifier step (line 388): everything at or past the classifier call is
collapsed into this marker since its behaviour depends on the external model. -/
inductive DetResult where
  | agent (a : AgentType)
  | slm
deriving DecidableEq

/-- Lowercased risk-area display names keyed by area id
(`{area_id: area_data.get('name', area_id).lower()}`). -/
def ra_name_map (tree : DecisionTree) : List (String × String) :=
  tree.risk_areas.map fun p => (p.1, pyLower (p.2.name.getD p.1))

def risk_area_names (tree : DecisionTree) : List String :=
  tree.risk_areas.map fun p => pyLower (p.2.name.getD p.1)

def risk_area_ids_lower (tree : DecisionTree) : List String :=
  tree.risk_areas.map fun p => pyLower p.1

/-- The follow-up heuristic of `_determine_agent` lines 323-336. -/
def is_follow_up (message message_lower : String) (ctx : Context) (waiting_for_info : Bool) :
    Bool :=
  ["yes", "no", "ok", "okay", "sure", "please", "continue", "proceed"].contains message_lower ||
  pyStartsWith message_lower "yes " || pyStartsWith message_lower "no " ||
  (pyStartsWith message_lower "please " && !(containsSub message_lower "question")) ||
  pyStartsWith message_lower "i am ready" ||
  pyStartsWith message_lower ("i" ++ apos ++ "m ready") ||
  pyStartsWith message_lower "ready to" ||
  pyStartsWith message_lower ("let" ++ apos ++ "s") ||
  pyStartsWith message_lower "lets" ||
  (matchesReadyNext message_lower && optStrTruthy ctx.last_routed_agent) ||
  (pyWordCount message ≤ 5 && optStrTruthy ctx.last_routed_agent) ||
  waiting_for_info

/-- `_determine_agent`: the priority waterfall evaluated once per message.
The checks appear in source order; the first hit wins. -/
def determine_agent (message : String) (ctx : Context) (store : Store)
    (tree : DecisionTree) : DetResult :=
  let message_lower := pyStrip (pyLower message)
  if ctx.qualifying_questions_mode then .agent .question
  else if matchesFinalize message_lower then .agent .status
  else if matchesReview message_lower then .agent .status
  else
    let digitSel : Bool := strIsDigit message_lower &&
      (let n := digitsToNat message_lower.data
       1 ≤ n && n ≤ ctx.remaining_risk_area_ids.length)
    let nameSel : Bool := ctx.remaining_risk_area_ids.any fun ra_id =>
      let ra_name := (alookup (ra_name_map tree) ra_id).getD ""
      containsSub message_lower ra_name || containsSub ra_name message_lower
    if ctx.awaiting_risk_area_selection && (digitSel || nameSel) then .agent .question
    else if optStrTruthy ctx.assessment_id &&
        (match alookup store (ctx.assessment_id.getD "") with
         | some a => optStrTruthy a.current_question_id
         | none => false) then .agent .question
    else if ctx.available_risk_areas.isEmpty &&
        ((risk_area_names tree).any
           (fun n => containsSub message_lower n || containsSub n message_lower) ||
         (risk_area_ids_lower tree).any
           (fun i => containsSub message_lower i || containsSub i message_lower)) then
      .agent .question
    else
      let waiting_for_info := ctx.waiting_for_project_name || !ctx.missing_fields.isEmpty ||
        !ctx.available_risk_areas.isEmpty
      let follow_up := is_follow_up message message_lower ctx waiting_for_info
      if matchesStartQuestion message_lower then .agent .question
      else if follow_up && optStrTruthy ctx.last_routed_agent then
        .agent (get_agent_by_type (ctx.last_routed_agent.getD ""))
      else if matchesFinalize message_lower then .agent .status
      else .slm

/-!
`invoke_async`: the per-turn entry point.  Before `_determine_agent` runs, the
code checks (in order) the session-reset keywords, re-parses the previous
response text for lettered or numbered menu options, and handles
list/enumeration requests.  The model reproduces that order and the parsing.
-/

def reset_keywords : List String :=
  ["reset", "clear session", "start over", "restart", "clear context", "reset session",
   "new session", "fresh start"]

/-- `any(keyword in msg_lower for keyword in reset_keywords)`. -/
def containsResetKeyword (msg_lower : String) : Bool :=
  reset_keywords.any fun k => containsSub msg_lower k

/-- Leftmost match of `TRA-\d{4}-[A-Z0-9]+` (IGNORECASE) anchored at the head
of the suffix; returns the matched text with its original casing. -/
def traAt (s : List Char) : Option (List Char) :=
  match s with
  | t :: r :: a :: dash :: d1 :: d2 :: d3 :: d4 :: dash2 :: rest =>
    if pyLowerChar t == 't' && pyLowerChar r == 'r' && pyLowerChar a == 'a' && dash == '-' &&
        d1.isDigit && d2.isDigit && d3.isDigit && d4.isDigit && dash2 == '-' then
      let alnum := rest.takeWhile fun c => c.isUpper || c.isLower || c.isDigit
      if alnum.isEmpty then none
      else some ([t, r, a, dash, d1, d2, d3, d4, dash2] ++ alnum)
    else none
  | _ => none

def extractTRAAux : List Char → Option String
  | [] => none
  | c :: rest =>
    match traAt (c :: rest) with
    | some m => some (String.mk m)
    | none => extractTRAAux rest

/-- `re.search(r"TRA-\d{4}-[A-Z0-9]+", message, re.IGNORECASE)`, group(0). -/
def extractTRA (message : String) : Option String := extractTRAAux message.data

/-- Lookahead `(?=\n[A-Z]\))` of the letter-option pattern. -/
def lookAheadLetter (s : List Char) : Bool :=
  match s with
  | '\n' :: u :: ')' :: _ => u.isUpper
  | _ => false

/-- Lazy capture `(.+?)` of the letter-option pattern: the shortest non-empty
text after which the lookahead holds or the string ends (DOTALL). -/
def lazyTextLetter : Nat → List Char → Option (List Char × List Char)
  | 0, _ => none
  | _, [] => none
  | fuel + 1, c :: rest =>
    if lookAheadLetter rest || rest.isEmpty then some ([c], rest)
    else
      match lazyTextLetter fuel rest with
      | some (t, rem) => some (c :: t, rem)
      | none => none

/-- One match of `([A-Z])\)\s+(.+?)(?=\n[A-Z]\)|$)` anchored at the head. -/
def matchLetterOption (s : List Char) : Option ((String × String) × List Char) :=
  match s with
  | u :: ')' :: rest =>
    if u.isUpper then
      let ws := rest.takeWhile isPySpace
      if ws.isEmpty then none
      else
        let rest2 := rest.drop ws.length
        match lazyTextLetter rest2.length rest2 with
        | some (t, rem) => some ((String.singleton u, String.mk t), rem)
        | none => none
    else none
  | _ => none

def findallLetterAux : Nat → List Char → List (String × String)
  | 0, _ => []
  | _, [] => []
  | fuel + 1, c :: rest =>
    match matchLetterOption (c :: rest) with
    | some (pair, rem) => pair :: findallLetterAux fuel rem
    | none => findallLetterAux fuel rest

/-- `dict(letter_pattern.findall(last_msg))`: later duplicates of a letter
overwrite its value while keeping the first position. -/
def letter_options (s : String) : List (String × String) :=
  (findallLetterAux s.length s.data).foldl (fun acc p => dinsert acc p.1 p.2) []

/-- Lookahead `(?=\n\d+[\.\)])` of the numbered-option pattern. -/
def lookAheadNumber (s : List Char) : Bool :=
  match s with
  | '\n' :: rest =>
    let ds := rest.takeWhile Char.isDigit
    !ds.isEmpty &&
      (match rest.drop ds.length with
       | '.' :: _ => true
       | ')' :: _ => true
       | _ => false)
  | _ => false

def lazyTextNumber : Nat → List Char → Option (List Char × List Char)
  | 0, _ => none
  | _, [] => none
  | fuel + 1, c :: rest =>
    if lookAheadNumber rest || rest.isEmpty then some ([c], rest)
    else
      match lazyTextNumber fuel rest with
      | some (t, rem) => some (c :: t, rem)
      | none => none

/-- One match of `(\d+)[\.\)]\s+(.+?)(?=\n\d+[\.\)]|$)` anchored at the head.
The captured text is stripped by the caller (`match[1].strip()`). -/
def matchNumberOption (s : List Char) : Option ((String × String) × List Char) :=
  let ds := s.takeWhile Char.isDigit
  if ds.isEmpty then none
  else
    match s.drop ds.length with
    | sep :: rest =>
      if sep == '.' || sep == ')' then
        let ws := rest.takeWhile isPySpace
        if ws.isEmpty then none
        else
          let rest2 := rest.drop ws.length
          match lazyTextNumber rest2.length rest2 with
          | some (t, rem) => some ((String.mk ds, pyStrip (String.mk t)), rem)
          | none => none
      else none
    | [] => none

def findallNumberAux : Nat → List Char → List (String × String)
  | 0, _ => []
  | _, [] => []
  | fuel + 1, c :: rest =>
    match matchNumberOption (c :: rest) with
    | some (pair, rem) => pair :: findallNumberAux fuel rem
    | none => findallNumberAux fuel rest

def number_options (s : String) : List (String × String) :=
  (findallNumberAux s.length s.data).foldl (fun acc p => dinsert acc p.1 p.2) []

/-- `re.search(r'\d+\s+(and|,)\s+\d+', user_msg)`: a multi-selection reply the
option logic must not intercept. -/
def isMultiSelection (user_msg : String) : Bool :=
  scanSearch (fun _ suf =>
    let ds := suf.takeWhile Char.isDigit
    !ds.isEmpty &&
      (match dropSpacesOne (suf.drop ds.length) with
       | none => false
       | some r2 =>
         let r3 := if "and".data.isPrefixOf r2 then some (r2.drop 3)
           else if [','].isPrefixOf r2 then some (r2.drop 1) else none
         match r3 with
         | none => false
         | some r3v =>
           match dropSpacesOne r3v with
           | none => false
           | some r4 =>
             match r4 with
             | c :: _ => c.isDigit
             | [] => false)) none user_msg.data

/-- Anchored `re.match(r'(option\s*)?([a-zA-Z])\b', s)`: group 2. -/
def reMatchLetter (s : List Char) : Option Char :=
  let tryAt : List Char → Option Char := fun t =>
    match t with
    | c :: rest => if c.isAlpha && afterOk rest then some c else none
    | [] => none
  match (if "option".data.isPrefixOf s then tryAt ((s.drop 6).dropWhile isPySpace) else none) with
  | some c => some c
  | none => tryAt s

/-- Anchored `re.match(r'(option\s*)?(\d+)\b', s)`: group 2 as a number. -/
def reMatchDigits (s : List Char) : Option Nat :=
  let tryAt : List Char → Option Nat := fun t =>
    let ds := t.takeWhile Char.isDigit
    if ds.isEmpty then none
    else if afterOk (t.drop ds.length) then some (digitsToNat ds) else none
  match (if "option".data.isPrefixOf s then tryAt ((s.drop 6).dropWhile isPySpace) else none) with
  | some n => some n
  | none => tryAt s

/-- Anchored full `re.match(r'^(option\s*)?(\d+)$', s)`: group 2. -/
def reMatchDigitsFull (s : List Char) : Option String :=
  let tryAt : List Char → Option String := fun t =>
    let ds := t.takeWhile Char.isDigit
    if !ds.isEmpty && (t.drop ds.length).isEmpty then some (String.mk ds) else none
  match (if "option".data.isPrefixOf s then tryAt ((s.drop 6).dropWhile isPySpace) else none) with
  | some v => some v
  | none => tryAt s

/-- Resolve the user's reply against the parsed options (lines 625-647). -/
def selectOption (user_msg : String) (options : List (String × String)) (otype : String) :
    Option String :=
  if otype == "letter" then
    let byLetter :=
      match reMatchLetter user_msg.data with
      | some c =>
        let letter := String.singleton (pyUpperChar c)
        if (alookup options letter).isSome then some letter else none
      | none => none
    match byLetter with
    | some letter => some letter
    | none =>
      match reMatchDigits user_msg.data with
      | some n =>
        if 1 ≤ n && n ≤ options.length then (options.get? (n - 1)).map Prod.fst else none
      | none => none
  else
    match reMatchDigitsFull (pyStrip user_msg).data with
    | some num => if (alookup options num).isSome then some num else none
    | none => none

/-- Sub-route of the "start answering questions" option branch. -/
inductive StartAnsweringRoute where
  | showSelection
  | startQuestions
  | noRiskAreas
  | loadFailed
  | noAssessmentId
deriving DecidableEq

/-- Where a turn is routed by `invoke_async` before any handler runs.
`reset` returns the confirmation with the cleared context and invokes no
agent; the `option*` and `list*` constructors likewise bypass
`_determine_agent`; `determined` hands the turn to the waterfall. -/
inductive Route where
  | reset (ctx : Context)
  | optionUploadDocs
  | optionQualifying
  | optionStartAnswering (sub : StartAnsweringRoute)
  | optionPick (a : AgentType) (optText : String)
  | listAssessments
  | listDocuments
  | listKbItems
  | listUnsupported
  | determined (r : DetResult)
deriving DecidableEq

/-- Routing of a selected menu option by its text (lines 653-721). The final
two branches of the source (`'question' in opt_text` and the default) both
target the question agent and are merged. -/
def option_route (optText : String) (ctx : Context) (store : Store) : Route :=
  let ot := pyLower optText
  if containsSub ot "upload" && (containsSub ot "document" || containsSub ot "ai-powered") then
    .optionUploadDocs
  else if containsSub ot "answer" && containsSub ot "ai question" && containsSub ot "identify"
    then .optionQualifying
  else if containsSub ot "start answering questions" ||
      (containsSub ot "begin answering" && containsSub ot "questions") then
    .optionStartAnswering
      (match ctx.assessment_id with
       | none => .noAssessmentId
       | some aid =>
         if aid == "" then .noAssessmentId
         else
           match alookup store aid with
           | none => .loadFailed
           | some a =>
             if a.active_risk_areas.length > 1 then .showSelection
             else if a.active_risk_areas.length == 1 then .startQuestions
             else .noRiskAreas)
  else if containsSub ot "document" then .optionPick .document optText
  else if containsSub ot "standard risk" || containsSub ot "select" then
    .optionPick .assessment optText
  else .optionPick .question optText

/-- The routing decision of `invoke_async` for one turn: reset check, menu
option re-parsing of the previous response, list-request handling, then the
`_determine_agent` waterfall. -/
def invoke_route (message : String) (ctx : Context) (store : Store) (tree : DecisionTree)
    (self_session : String) : Route :=
  let msg_lower := pyStrip (pyLower message)
  if containsResetKeyword msg_lower then
    .reset { session_id := some (ctx.session_id.getD self_session) }
  else
    let ctx1 :=
      match extractTRA message with
      | some aid => { ctx with assessment_id := some aid }
      | none => ctx
    let user_msg := pyLower (pyStrip message)
    let last_msg := ctx1.last_message
    let letterOpts := if last_msg == "" then [] else letter_options last_msg
    let nopts := number_options last_msg
    let options := if !letterOpts.isEmpty then letterOpts
      else if !nopts.isEmpty then nopts else []
    let otype := if !letterOpts.isEmpty then "letter"
      else if !nopts.isEmpty then "number" else "letter"
    let selected := if !options.isEmpty && !(isMultiSelection user_msg) then
      selectOption user_msg options otype else none
    match selected with
    | some sel => option_route ((alookup options sel).getD "") ctx1 store
    | none =>
      let msg_lower2 := pyLower message
      if matchesListRequest msg_lower2 then
        if containsSub msg_lower2 "assessment" then .listAssessments
        else if containsSub msg_lower2 "document" || containsSub msg_lower2 "file" then
          .listDocuments
        else if kbHit msg_lower2 then .listKbItems
        else .listUnsupported
      else .determined (determine_agent message ctx1 store tree)

/-!
Predicates used in the theorem statements.
-/

/-- Agreement of two assessments on every persisted field except
`current_risk_area`. -/
def eq_except_current_risk_area (a b : Assessment) : Bool :=
  a.active_risk_areas == b.active_risk_areas &&
  a.current_question_id == b.current_question_id &&
  a.answers_by_risk_area == b.answers_by_risk_area &&
  a.completion_percentage == b.completion_percentage &&
  a.skipped_questions == b.skipped_questions

def opt_eq_except_cra : Option Assessment → Option Assessment → Bool
  | none, none => true
  | some a, some b => eq_except_current_risk_area a b
  | _, _ => false

/-- A question whose yes/no directives can never contribute to a skip list. -/
def no_skip_directive (q : Question) : Bool :=
  (match q.on_yes with
   | some d => !(d.action == "skip_questions") || d.skip_questions.isEmpty
   | none => true) &&
  (match q.on_no with
   | some d => !(d.action == "skip_questions") || d.skip_questions.isEmpty
   | none => true)

/-- The second answer set extends the first: every stored answer is preserved. -/
def answers_extends (a1 a2 : List (String × Ans)) : Prop :=
  ∀ k v, alookup a1 k = some v → alookup a2 k = some v

/-!
Concrete instances used by counterexamples and witnesses.
-/

def optYes : OptionItem := { label := "Yes", value := "Y" }

def optNo : OptionItem := { label := "No", value := "N" }

/-- C1 counterexample state: an assessment with two active areas, a stored
current area `a` and no open question. -/
def asmtC1 : Assessment :=
  { active_risk_areas := ["a", "b"], current_risk_area := some "a",
    current_question_id := none }

def storeC1 : Store := [("X", asmtC1)]

/-- C1 witness state: an assessment store where the flow fails with the
assessment-not-found error. -/
def asmtW1 : Assessment :=
  { active_risk_areas := ["a"], current_risk_area := some "a",
    current_question_id := none }

def storeW1 : Store := [("Y", asmtW1)]

def asmtC2 : Assessment :=
  { active_risk_areas := ["area1"], current_question_id := some "Q1" }

def storeC2 : Store := [("A1", asmtC2)]

def ctxC2 : Context := { assessment_id := some "A1" }

def ctxC3 : Context := { qualifying_questions_mode := true }

def ctxW3 : Context := { qualifying_questions_mode := true, last_routed_agent := some "status" }

/-- C4 counterexample catalog: answering A with yes skips C. -/
def qSkipA : Question :=
  { id := "A", risk_area := "ra",
    on_yes := some { action := "skip_questions", skip_questions := ["C"] } }

def qPlainB : Question := { id := "B", risk_area := "ra" }

def qPlainC : Question := { id := "C", risk_area := "ra" }

def treeC4 : DecisionTree := { questions := [qSkipA, qPlainB, qPlainC] }

/-- C4 witness catalog: the same three questions with no skip directives. -/
def treeW4 : DecisionTree :=
  { questions := [{ id := "A", risk_area := "ra" }, qPlainB, qPlainC] }

/-- C5 witness question: depends on P being answered "yes". -/
def qDepW : Question :=
  { id := "Q9", risk_area := "ra",
    depends_on := some { question_id := "P", answer := .s "yes" } }

def treeW6 : DecisionTree := { questions := [qSkipA, qPlainB, qPlainC] }

/-- C7 scenario: non-required multi-select with Yes/No options. -/
def qMultiC7 : Question :=
  { id := "M1", risk_area := "area1", qtype := "multiselect", required := false,
    options := [optYes, optNo] }

def treeC7 : DecisionTree := { questions := [qMultiC7] }

def asmtC7 : Assessment :=
  { active_risk_areas := ["area1"], current_risk_area := some "area1",
    current_question_id := some "M1" }

def storeC7 : Store := [("A1", asmtC7)]

/-- C8 witness state: one active area whose only question is already answered,
so the save recomputes a 100% completion. -/
def qTextW8 : Question := { id := "T1", risk_area := "area1", qtype := "text" }

def qTextW8b : Question := { id := "T2", risk_area := "area1", qtype := "text" }

def treeW8 : DecisionTree := { questions := [qTextW8, qTextW8b] }

def asmtW8 : Assessment :=
  { active_risk_areas := ["area1"], current_risk_area := some "area1",
    current_question_id := some "T2",
    answers_by_risk_area := [("area1", [("T1", Ans.s "done")])] }

def storeW8 : Store := [("A8", asmtW8)]

def ctxW9 : Context :=
  { session_id := some "sess9", assessment_id := some "A1",
    qualifying_questions_mode := true }

/-- C10 scenario: required multi-select answered with a non-empty string none
of whose tokens matches an option. -/
def qMultiC10 : Question :=
  { id := "M2", risk_area := "area1", qtype := "multiselect", required := true,
    options := [optYes, optNo] }

def treeC10 : DecisionTree := { questions := [qMultiC10] }

def asmtC10 : Assessment :=
  { active_risk_areas := ["area1"], current_risk_area := some "area1",
    current_question_id := some "M2" }

def storeC10 : Store := [("A1", asmtC10)]

/-!
Supporting lemmas.
-/

theorem alookup_supdate (store : Store) (aid : String) (f : Assessment → Assessment)
    (k : String) :
    alookup (supdate store aid f) k =
      if k = aid then (alookup store k).map f else alookup store k := by
  induction store with
  | nil => simp only [supdate, alookup]; split <;> rfl
  | cons hd tl ih =>
    obtain ⟨k2, v⟩ := hd
    by_cases h2a : k2 = aid
    · by_cases h2k : k2 = k
      · subst h2a; subst h2k
        simp [supdate, alookup]
      · have hka : ¬ k = aid := fun h => h2k (h2a.trans h.symm)
        have hak : ¬ aid = k := fun h => hka h.symm
        simp [supdate, alookup, h2a, h2k, hka, hak, ih]
    · by_cases h2k : k2 = k
      · subst h2k
        simp [supdate, alookup, h2a]
      · simp [supdate, alookup, h2a, h2k, ih]

theorem alookup_supdate_isSome (store : Store) (aid : String) (f : Assessment → Assessment)
    (k : String) (h : (alookup store k).isSome = true) :
    (alookup (supdate store aid f) k).isSome = true := by
  rw [alookup_supdate]
  split
  · cases hv : alookup store k
    · rw [hv] at h; cases h
    · rfl
  · exact h

theorem eq_except_cra_refl (a : Assessment) : eq_except_current_risk_area a a = true := by
  simp [eq_except_current_risk_area]

theorem opt_eq_except_cra_refl (o : Option Assessment) : opt_eq_except_cra o o = true := by
  cases o with
  | none => rfl
  | some a => exact eq_except_cra_refl a

theorem eq_except_cra_set (a : Assessment) (x : Option String) :
    eq_except_current_risk_area a { a with current_risk_area := x } = true := by
  simp [eq_except_current_risk_area]

theorem question_flow_step3_no_error (store : Store) (aid ra : String)
    (answers : List (String × Ans)) (tree : DecisionTree) :
    ((question_flow_step3 store aid ra answers tree).1).isError = false := by
  simp only [question_flow_step3]
  split <;> rfl

theorem dinsert_lookup_self {α : Type} (m : List (String × α)) (k : String) (v : α)
    (h : alookup m k = some v) : dinsert m k v = m := by
  induction m with
  | nil => simp [alookup] at h
  | cons hd tl ih =>
    obtain ⟨k2, v2⟩ := hd
    by_cases hk : k2 = k
    · subst hk
      simp [alookup] at h
      simp [dinsert, h]
    · simp [alookup, hk] at h
      simp [dinsert, hk, ih h]

theorem answers_extends_append (m rest : List (String × Ans)) :
    answers_extends m (m ++ rest) := by
  intro k v h
  induction m with
  | nil => simp [alookup] at h
  | cons hd tl ih =>
    obtain ⟨k2, v2⟩ := hd
    by_cases hk : k2 = k
    · subst hk
      simp [alookup] at h
      simp [alookup, h]
    · simp [alookup, hk] at h
      simpa [alookup, hk] using ih h

theorem auto_trigger_isSome (store1 : Store) (aid qid : String) (normalized : Ans)
    (active : List String) (tree : DecisionTree) (k : String)
    (h : (alookup store1 k).isSome = true) :
    (alookup (auto_trigger_store store1 aid qid normalized active tree) k).isSome = true := by
  simp only [auto_trigger_store]
  repeat' split
  all_goals first
    | exact h
    | exact alookup_supdate_isSome _ _ _ _ h

theorem question_flow_save_error_store (store1 : Store) (aid ra : String)
    (assessment : Assessment) (ans : Ans) (tree : DecisionTree)
    (hsome : (alookup store1 aid).isSome = true) :
    ((question_flow_save store1 aid ra assessment ans tree).1).isError = true →
    (question_flow_save store1 aid ra assessment ans tree).2 = store1 := by
  simp only [question_flow_save]
  split
  · intro _; rfl
  · split
    · intro _; rfl
    · rename_i question hfind
      split
      · intro _; rfl
      · split
        · rename_i hnone
          intro _
          exfalso
          have hs := auto_trigger_isSome store1 aid (assessment.current_question_id.getD "")
            (normalize_answer question ans) assessment.active_risk_areas tree aid hsome
          rw [hnone] at hs
          cases hs
        · intro herr
          rw [question_flow_step3_no_error] at herr
          cases herr

/-!
C1.  The claim states that every error result of `question_flow` leaves the
persisted assessment exactly as it was.  The code persists the resolved
`current_risk_area` (line 214) before the no-open-question, unknown-question
and required-answer checks, so those error results do mutate the stored
assessment.  The remaining fields are untouched on every error path.
-/

/-- C1 counterexample: the call ends in the "no active question" error, yet the
stored assessment's `current_risk_area` has been switched from "a" to "b". -/
theorem c1_counterexample :
    ((question_flow storeC1 "X" (some "b") (some (.s "hi")) ({} : DecisionTree)).1).isError
        = true ∧
    alookup (question_flow storeC1 "X" (some "b") (some (.s "hi"))
        ({} : DecisionTree)).2 "X" ≠ some asmtC1 := by
  constructor
  · decide
  · decide

/-- C1 amended: an error result of `question_flow` leaves every persisted field
of every stored assessment unchanged except `current_risk_area`, which may have
been set to the resolved risk area before validation (modelled with a reliable
store; a store failure partway through can additionally strand earlier writes
of the sequence). -/
theorem c1_amended (store : Store) (aid : String) (raArg : Option String)
    (answer : Option Ans) (tree : DecisionTree)
    (herr : ((question_flow store aid raArg answer tree).1).isError = true) (k : String) :
    opt_eq_except_cra (alookup store k)
      (alookup (question_flow store aid raArg answer tree).2 k) = true := by
  unfold question_flow at herr ⊢
  cases hl : alookup store aid with
  | none =>
    simp only [hl] at herr ⊢
    exact opt_eq_except_cra_refl _
  | some assessment =>
    simp only [hl] at herr ⊢
    cases hr : resolve_risk_area assessment raArg with
    | none =>
      simp only [hr] at herr ⊢
      exact opt_eq_except_cra_refl _
    | some ra =>
      simp only [hr] at herr ⊢
      cases answer with
      | none =>
        exfalso
        rw [question_flow_step3_no_error] at herr
        cases herr
      | some ans =>
        have hsome1 : (alookup (supdate store aid
            fun a => { a with current_risk_area := some ra }) aid).isSome = true := by
          apply alookup_supdate_isSome
          rw [hl]; rfl
        have h2 := question_flow_save_error_store _ aid ra assessment ans tree hsome1 herr
        rw [h2, alookup_supdate]
        by_cases hk : k = aid
        · subst hk
          rw [if_pos rfl, hl]
          exact eq_except_cra_set assessment (some ra)
        · rw [if_neg hk]
          exact opt_eq_except_cra_refl _

/-- C1 amended, witness: the assessment-not-found error leaves the store
untouched, checked at a concrete input. -/
theorem c1_amended_witness :
    ((question_flow storeW1 "Z" none none ({} : DecisionTree)).1).isError = true ∧
    opt_eq_except_cra (alookup storeW1 "Y")
      (alookup (question_flow storeW1 "Z" none none ({} : DecisionTree)).2 "Y") = true :=
  ⟨by decide, c1_amended storeW1 "Z" none none ({} : DecisionTree) (by decide) "Y"⟩

/-!
C2.  With an open question, the current-question check does route to the
question agent and the LLM classifier is never reached — but the finalize and
review-answers priority checks run first and route those messages to the
status agent, so not every arbitrary text goes to the question agent.
-/

/-- C2 counterexample: the context names assessment A1 whose stored
`current_question_id` is "Q1", yet the message "finalize" is routed to the
status agent, not the question agent. -/
theorem c2_counterexample :
    ctxC2.assessment_id = some "A1" ∧
    alookup storeC2 "A1" = some asmtC2 ∧
    asmtC2.current_question_id = some "Q1" ∧
    determine_agent "finalize" ctxC2 storeC2 ({} : DecisionTree) = .agent .status ∧
    DetResult.agent AgentType.status ≠ DetResult.agent AgentType.question := by
  refine ⟨rfl, by decide, rfl, by decide, by decide⟩

/-- C2 amended: whenever the shared context names an assessment whose stored
`current_question_id` is set, the router never submits the message to the LLM
classifier and routes it to the question agent or — exactly for messages
matching the finalize/submit or review-answers word patterns — to the status
agent; every message not matching those two patterns goes to the question
agent. -/
theorem c2_amended (message : String) (ctx : Context) (store : Store) (tree : DecisionTree)
    (aid : String) (a : Assessment) (q : String)
    (h1 : ctx.assessment_id = some aid) (h2 : aid ≠ "")
    (h3 : alookup store aid = some a)
    (h4 : a.current_question_id = some q) (h5 : q ≠ "") :
    determine_agent message ctx store tree ≠ .slm ∧
    (determine_agent message ctx store tree = .agent .question ∨
     determine_agent message ctx store tree = .agent .status) ∧
    (matchesFinalize (pyStrip (pyLower message)) = false →
     matchesReview (pyStrip (pyLower message)) = false →
     determine_agent message ctx store tree = .agent .question) := by
  have hguard : (optStrTruthy ctx.assessment_id &&
      (match alookup store (ctx.assessment_id.getD "") with
       | some a2 => optStrTruthy a2.current_question_id
       | none => false)) = true := by
    rw [h1]
    simp only [Option.getD_some, h3, optStrTruthy]
    simp [h2, h4, optStrTruthy, h5]
  unfold determine_agent
  simp only [hguard]
  split_ifs <;> simp_all

/-- C2 amended, witness: a status-looking message that matches neither pattern
is routed to the question agent at a concrete input. -/
theorem c2_amended_witness :
    determine_agent "what is the overall status" ctxC2 storeC2 ({} : DecisionTree) ≠ .slm ∧
    (determine_agent "what is the overall status" ctxC2 storeC2 ({} : DecisionTree)
        = .agent .question ∨
     determine_agent "what is the overall status" ctxC2 storeC2 ({} : DecisionTree)
        = .agent .status) ∧
    (matchesFinalize (pyStrip (pyLower "what is the overall status")) = false →
     matchesReview (pyStrip (pyLower "what is the overall status")) = false →
     determine_agent "what is the overall status" ctxC2 storeC2 ({} : DecisionTree)
        = .agent .question) :=
  c2_amended "what is the overall status" ctxC2 storeC2 ({} : DecisionTree) "A1" asmtC2 "Q1"
    rfl (by decide) (by decide) rfl (by decide)

/-!
C3.  Inside `_determine_agent` the qualifying-questions check is the first
priority and does forward every message to the question agent.  But
`invoke_async` evaluates the option re-parsing of the previous response and
the list-request handling before `_determine_agent` runs, so those routes are
still evaluated (and can intercept the turn) while the flag is set.
-/

/-- C3 counterexample: with `qualifying_questions_mode` set, the message
"list assessments" is intercepted by the list-request route and never
forwarded to the question agent. -/
theorem c3_counterexample :
    ctxC3.qualifying_questions_mode = true ∧
    invoke_route "list assessments" ctxC3 [] ({} : DecisionTree) "S" = .listAssessments ∧
    Route.listAssessments ≠ .determined (.agent .question) := by
  refine ⟨rfl, by decide, by decide⟩

/-- C3 amended: while `qualifying_questions_mode` is set, any message that
reaches `_determine_agent` (i.e. survives the session-reset check, the option
re-parsing of the previous response, and the list-request handling that
`invoke_async` runs first) is forwarded unconditionally to the question agent;
no finalize/review pattern and no LLM classifier is evaluated there. -/
theorem c3_amended (message : String) (ctx : Context) (store : Store) (tree : DecisionTree)
    (h : ctx.qualifying_questions_mode = true) :
    determine_agent message ctx store tree = .agent .question := by
  unfold determine_agent
  rw [h]
  simp

/-- C3 amended, witness at a concrete input. -/
theorem c3_amended_witness :
    determine_agent "finalize assessment" ctxW3 [] ({} : DecisionTree) = .agent .question :=
  c3_amended "finalize assessment" ctxW3 [] ({} : DecisionTree) rfl

/-!
C9.  The session-reset check is the very first step of `invoke_async`: any
message containing a reset keyword clears the shared context except the
session id and returns the confirmation without invoking any handler agent
(`Route.reset` is returned before any agent dispatch).
-/

/-- C9: a message containing a reset keyword makes `invoke_async` clear every
context field except `session_id` (falling back to the orchestrator's own
session id when the context has none) and return the reset confirmation; no
handler agent is invoked on that turn. -/
theorem c9 (message : String) (ctx : Context) (store : Store) (tree : DecisionTree)
    (self_session : String)
    (h : containsResetKeyword (pyStrip (pyLower message)) = true) :
    invoke_route message ctx store tree self_session =
      .reset { session_id := some (ctx.session_id.getD self_session) } := by
  unfold invoke_route
  simp [h]

/-- C9 witness: "please reset" resets a populated context to only its session
id; every other field returns to its cleared default. -/
theorem c9_witness :
    invoke_route "please reset" ctxW9 [] ({} : DecisionTree) "fallback" =
      .reset { session_id := some "sess9" } :=
  c9 "please reset" ctxW9 [] ({} : DecisionTree) "fallback" (by decide)

/-!
C5.  `depends_on` semantics of `_should_show_question`.
-/

/-- C5: for a question declaring `depends_on = {question_id, answer}` with a
non-empty parent id, `_should_show_question` returns false whenever the parent
is unanswered or its stored answer differs (case-insensitively for strings)
from the required value, and returns true once it matches, provided the
question is unanswered, not in the skip list, passes its legacy conditions and
is not gated by an unmet `show_questions` reference. -/
theorem c5 (q : Question) (answers : List (String × Ans)) (skipped : List String)
    (allQs : List Question) (p : String) (v : Ans)
    (hdep : q.depends_on = some { question_id := p, answer := v })
    (hp : p ≠ "") :
    (alookup answers p = none →
       should_show_question q answers skipped allQs = false) ∧
    (∀ a, alookup answers p = some a → depends_answer_eq a v = false →
       should_show_question q answers skipped allQs = false) ∧
    (∀ a, alookup answers p = some a → depends_answer_eq a v = true →
       alookup answers q.id = none →
       skipped.contains q.id = false →
       (q.conditions.isEmpty = false → evaluate_conditions q.conditions answers = true) →
       (allQs.isEmpty = false → check_show_questions_dependency q allQs answers = true) →
       should_show_question q answers skipped allQs = true) := by
  refine ⟨?_, ?_, ?_⟩
  · intro hnone
    have hd : evaluate_depends_on q answers = false := by
      unfold evaluate_depends_on
      rw [hdep]
      simp [hp, hnone]
    unfold should_show_question
    rw [hd]
    simp
  · intro a ha hne
    have hd : evaluate_depends_on q answers = false := by
      unfold evaluate_depends_on
      rw [hdep]
      simp [hp, ha, hne]
    unfold should_show_question
    rw [hd]
    simp
  · intro a ha heq hunans hskip hconds hshow
    have hd : evaluate_depends_on q answers = true := by
      unfold evaluate_depends_on
      rw [hdep]
      simp [hp, ha, heq]
    unfold should_show_question
    rw [hd, hunans, hskip]
    simp only [Option.isSome_none, Bool.false_eq_true, if_false, Bool.not_true,
      Bool.false_and, Bool.and_false]
    by_cases hc : q.conditions.isEmpty
    · by_cases hs : allQs.isEmpty
      · simp [hc, hs]
      · simp [hc, hs, hshow (by simpa using hs)]
    · by_cases hs : allQs.isEmpty
      · simp [hc, hs, hconds (by simpa using hc)]
      · simp [hc, hs, hconds (by simpa using hc), hshow (by simpa using hs)]

/-- C5 witness: concrete question depending on P = "yes"; with P answered
"YES" (case-insensitive match) and nothing else in the way, it is shown. -/
theorem c5_witness :
    should_show_question qDepW [("P", Ans.s "YES")] [] [qDepW] = true :=
  (c5 qDepW [("P", Ans.s "YES")] [] [qDepW] "P" (Ans.s "yes") rfl (by decide)).2.2
    (Ans.s "YES") rfl (by decide) rfl (by decide)
    (fun h => absurd h (by decide)) (fun _ => by decide)

/-!
C6.  The skip-list derivation is a pure function of the answer set.
-/

/-- C6: deriving the skip list is deterministic (computing it twice on the same
answers yields the same list), and re-answering a question with its already
stored value leaves the answer dict, hence the derived skip list, unchanged. -/
theorem c6 (answers : List (String × Ans)) (tree : DecisionTree) (q : String) (v : Ans)
    (h : alookup answers q = some v) :
    derive_skip_list answers tree = derive_skip_list answers tree ∧
    derive_skip_list (dinsert answers q v) tree = derive_skip_list answers tree :=
  ⟨rfl, by rw [dinsert_lookup_self answers q v h]⟩

/-- C6 witness: re-answering A with the same "Yes" leaves the derived skip
list (which skips C) unchanged. -/
theorem c6_witness :
    derive_skip_list [("A", Ans.s "Yes")] treeW6 = derive_skip_list [("A", Ans.s "Yes")] treeW6 ∧
    derive_skip_list (dinsert [("A", Ans.s "Yes")] "A" (Ans.s "Yes")) treeW6 =
      derive_skip_list [("A", Ans.s "Yes")] treeW6 :=
  c6 [("A", Ans.s "Yes")] treeW6 "A" (Ans.s "Yes") (by decide)

/-!
C7.  Multi-select normalization through a full `question_flow` save.
-/

/-- C7: saving the answer "Yes, maybe" to a non-required multi-select question
with options Yes/Y and No/N succeeds (the unmatched token "maybe" is silently
dropped, not an error) and persists the normalized value ["Y"], closing the
question. -/
theorem c7 :
    (question_flow storeC7 "A1" none (some (.s "Yes, maybe")) treeC7).1 =
      .ok true none ∧
    (alookup (question_flow storeC7 "A1" none (some (.s "Yes, maybe")) treeC7).2 "A1").map
        Assessment.answers_by_risk_area =
      some [("area1", [("M1", Ans.l ["Y"])])] ∧
    (alookup (question_flow storeC7 "A1" none (some (.s "Yes, maybe")) treeC7).2 "A1").map
        Assessment.current_question_id =
      some none := by
  refine ⟨by decide, by decide, by decide⟩

/-!
C10.  The required-answer check precedes normalization and tests only the raw
input, so a required multi-select accepts any non-empty string and may persist
the empty list.
-/

theorem alookup_dinsert_self {α : Type} (m : List (String × α)) (k : String) (v : α) :
    alookup (dinsert m k v) k = some v := by
  induction m with
  | nil => simp [dinsert, alookup]
  | cons hd tl ih =>
    obtain ⟨k2, v2⟩ := hd
    by_cases hk : k2 = k
    · simp [dinsert, hk, alookup]
    · simp [dinsert, hk, alookup, ih]

/-- When every (stripped) comma token of the raw string fails the
case-insensitive option match, multiselect normalization yields the empty
list. -/
theorem normalize_multiselect_unmatched (q : Question) (s : String)
    (hms : q.qtype = "multiselect")
    (hnm : ∀ a ∈ (pySplitComma s).map (fun a => pyStrip a),
      (q.options.find? fun opt => pyLower opt.value == pyStrip (pyLower a) ||
        pyLower opt.label == pyStrip (pyLower a)) = none) :
    normalize_answer q (.s s) = .l [] := by
  simp only [normalize_answer, hms, beq_self_eq_true, if_true]
  refine congrArg Ans.l ?_
  rw [List.filterMap_eq_nil_iff]
  intro a ha
  rw [hnm a ha]
  rfl

/-- Step 3 never touches `answers_by_risk_area`. -/
theorem question_flow_step3_answers (store : Store) (aid ra : String)
    (answers : List (String × Ans)) (tree : DecisionTree) (k : String) :
    (alookup (question_flow_step3 store aid ra answers tree).2 k).map
        Assessment.answers_by_risk_area =
      (alookup store k).map Assessment.answers_by_risk_area := by
  simp only [question_flow_step3]
  split
  · simp only [alookup_supdate]
    by_cases hk : k = aid
    · simp only [if_pos hk]
      cases alookup store k <;> rfl
    · simp only [if_neg hk]
  · simp only [alookup_supdate]
    by_cases hk : k = aid
    · simp only [if_pos hk]
      cases alookup store k <;> rfl
    · simp only [if_neg hk]

theorem exists_of_map_answers {st : Store} {k : String}
    {m : List (String × List (String × Ans))} {ra qid : String} {v : Ans}
    (h : (alookup st k).map Assessment.answers_by_risk_area = some m)
    (hv : (alookup m ra).bind (fun mm => alookup mm qid) = some v) :
    ∃ b, alookup st k = some b ∧
      (alookup b.answers_by_risk_area ra).bind (fun mm => alookup mm qid) = some v := by
  obtain ⟨b, hb, hf⟩ := Option.map_eq_some'.mp h
  exact ⟨b, hb, by rw [hf]; exact hv⟩

/-- The save phase on a multiselect question whose raw string answer is
non-empty and has no matching token: the required check (raw input only)
passes, normalization drops every token, and the empty list is persisted. -/
theorem question_flow_save_all_unmatched (store1 : Store) (aid ra : String)
    (assessment : Assessment) (s qid : String) (q : Question) (tree : DecisionTree)
    (hsome : (alookup store1 aid).isSome = true)
    (hcq : assessment.current_question_id = some qid) (hqid : qid ≠ "")
    (hfind : (questions_for tree ra).find? (fun q2 => q2.id == qid) = some q)
    (hms : q.qtype = "multiselect") (hs : s ≠ "")
    (hnm : ∀ a ∈ (pySplitComma s).map (fun a => pyStrip a),
      (q.options.find? fun opt => pyLower opt.value == pyStrip (pyLower a) ||
        pyLower opt.label == pyStrip (pyLower a)) = none) :
    ((question_flow_save store1 aid ra assessment (.s s) tree).1).isError = false ∧
    ∃ b, alookup (question_flow_save store1 aid ra assessment (.s s) tree).2 aid = some b ∧
      (alookup b.answers_by_risk_area ra).bind (fun mm => alookup mm qid) =
        some (Ans.l []) := by
  have hnorm : normalize_answer q (.s s) = .l [] := normalize_multiselect_unmatched q s hms hnm
  have hg1 : optStrTruthy (some qid) = true := by simp [optStrTruthy, hqid]
  have hg2 : (q.required && (Ans.s s == Ans.s "" || Ans.s s == Ans.l [])) = false := by
    have h1 : (Ans.s s == Ans.s "") = false := by simp [hs]
    have h2 : (Ans.s s == Ans.l []) = false := by simp
    simp [h1, h2]
  simp only [question_flow_save, hcq, Option.getD_some, hg1, Bool.not_true, hfind, hg2,
    Bool.false_eq_true, if_false, hnorm]
  cases h2 : alookup (auto_trigger_store store1 aid qid (Ans.l [])
      assessment.active_risk_areas tree) aid with
  | none =>
    exfalso
    have hs2 := auto_trigger_isSome store1 aid qid (Ans.l []) assessment.active_risk_areas
      tree aid hsome
    rw [h2] at hs2
    cases hs2
  | some assessment2 =>
    simp only [h2]
    constructor
    · exact question_flow_step3_no_error _ _ _ _ _
    · apply exists_of_map_answers
      · rw [question_flow_step3_answers, alookup_supdate, if_pos rfl, h2]
        rfl
      · rw [alookup_dinsert_self]
        exact alookup_dinsert_self _ qid (Ans.l [])

/-!
C10.  The required-answer check precedes normalization and tests only the raw
input, so a required multi-select accepts any non-empty string and may persist
the empty list.
-/

/-- C10: for every required multi-select question with an open question flow,
every non-empty raw answer string none of whose comma-separated tokens matches
an option (case-insensitively against labels and values) passes the
raw-input required check, normalizes to the empty list, and is accepted and
persisted as the empty list rather than rejected. -/
theorem c10 (store : Store) (aid : String) (raArg : Option String) (tree : DecisionTree)
    (assessment : Assessment) (ra qid : String) (q : Question) (s : String)
    (hl : alookup store aid = some assessment)
    (hr : resolve_risk_area assessment raArg = some ra)
    (hcq : assessment.current_question_id = some qid) (hqid : qid ≠ "")
    (hfind : (questions_for tree ra).find? (fun q2 => q2.id == qid) = some q)
    (_hreq : q.required = true)
    (hms : q.qtype = "multiselect") (hs : s ≠ "")
    (hnm : ∀ a ∈ (pySplitComma s).map (fun a => pyStrip a),
      (q.options.find? fun opt => pyLower opt.value == pyStrip (pyLower a) ||
        pyLower opt.label == pyStrip (pyLower a)) = none) :
    ((question_flow store aid raArg (some (.s s)) tree).1).isError = false ∧
    ∃ b, alookup (question_flow store aid raArg (some (.s s)) tree).2 aid = some b ∧
      (alookup b.answers_by_risk_area ra).bind (fun mm => alookup mm qid) =
        some (Ans.l []) := by
  have hsome1 : (alookup (supdate store aid
      fun a => { a with current_risk_area := some ra }) aid).isSome = true := by
    apply alookup_supdate_isSome
    rw [hl]; rfl
  unfold question_flow
  simp only [hl, hr]
  exact question_flow_save_all_unmatched _ aid ra assessment s qid q tree hsome1 hcq hqid
    hfind hms hs hnm

/-- C10 witness: the raw answer "zzz" on the required multi-select M2 (options
Yes/Y, No/N) is accepted and persisted as the empty list. -/
theorem c10_witness :
    ((question_flow storeC10 "A1" none (some (.s "zzz")) treeC10).1).isError = false ∧
    ∃ b, alookup (question_flow storeC10 "A1" none (some (.s "zzz")) treeC10).2 "A1" =
        some b ∧
      (alookup b.answers_by_risk_area "area1").bind (fun mm => alookup mm "M2") =
        some (Ans.l []) :=
  c10 storeC10 "A1" none treeC10 asmtC10 "area1" "M2" qMultiC10 "zzz" (by decide) (by decide)
    rfl (by decide) (by decide) rfl rfl (by decide) (by decide)

/-!
C4.  Monotonicity of the applicable count.  The claim fails as stated: a newly
answered question with an `on_yes`/`on_no` skip directive removes its targets
from the denominator (the spec's own end-to-end scenario shows 3 dropping to
2).  Without skip directives the count is monotone under answer extension.
-/

theorem get_skipped_nil (tree : DecisionTree)
    (h : ∀ qq ∈ tree.questions, no_skip_directive qq = true)
    (question_id : String) (answer : Ans) :
    get_skipped_questions question_id answer tree = [] := by
  unfold get_skipped_questions
  cases hf : tree.questions.find? (fun q2 => q2.id == question_id) with
  | none => rfl
  | some q2 =>
    have hq2 := h q2 (List.mem_of_find?_eq_some hf)
    unfold no_skip_directive at hq2
    rw [Bool.and_eq_true] at hq2
    obtain ⟨hy, hn⟩ := hq2
    have hyes : (match q2.on_yes with
        | some d => if d.action == "skip_questions" then d.skip_questions else []
        | none => []) = [] := by
      cases hd : q2.on_yes with
      | none => rfl
      | some d =>
        rw [hd] at hy
        by_cases ha : (d.action == "skip_questions") = true
        · simp [ha] at hy ⊢
          exact hy
        · simp [ha]
    have hno : (match q2.on_no with
        | some d => if d.action == "skip_questions" then d.skip_questions else []
        | none => []) = [] := by
      cases hd : q2.on_no with
      | none => rfl
      | some d =>
        rw [hd] at hn
        by_cases ha : (d.action == "skip_questions") = true
        · simp [ha] at hn ⊢
          exact hn
        · simp [ha]
    simp only [hyes, hno]
    split_ifs <;> simp

theorem derive_nil (answers : List (String × Ans)) (tree : DecisionTree)
    (h : ∀ qq ∈ tree.questions, no_skip_directive qq = true) :
    derive_skip_list answers tree = [] := by
  unfold derive_skip_list
  suffices h2 : ∀ acc, answers.foldl
      (fun acc p => acc ++ get_skipped_questions p.1 p.2 tree) acc = acc from h2 []
  induction answers with
  | nil => intro acc; rfl
  | cons hd tl ih =>
    intro acc
    simp only [List.foldl_cons, get_skipped_nil tree h hd.1 hd.2, List.append_nil]
    exact ih acc

theorem extends_lookup {a1 a2 : List (String × Ans)} (h : answers_extends a1 a2)
    (k : String) (hs : (alookup a1 k).isSome = true) : alookup a2 k = alookup a1 k := by
  cases hv : alookup a1 k with
  | none => rw [hv] at hs; cases hs
  | some v => exact h k v hv

theorem extends_isSome {a1 a2 : List (String × Ans)} (h : answers_extends a1 a2)
    (k : String) (hs : (alookup a1 k).isSome = true) : (alookup a2 k).isSome = true := by
  rw [extends_lookup h k hs]; exact hs

theorem evaluate_conditions_ext {a1 a2 : List (String × Ans)} (h : answers_extends a1 a2)
    (conds : List Condition)
    (hall : (conds.all fun c => (alookup a1 c.question_id).isSome) = true) :
    evaluate_conditions conds a2 = evaluate_conditions conds a1 := by
  unfold evaluate_conditions
  induction conds with
  | nil => rfl
  | cons c tl ih =>
    rw [List.all_cons, Bool.and_eq_true] at hall
    obtain ⟨hc, htl⟩ := hall
    rw [List.all_cons, List.all_cons, extends_lookup h c.question_id hc, ih htl]

theorem check_show_ext {a1 a2 : List (String × Ans)} (h : answers_extends a1 a2)
    (q : Question) (allQs : List Question)
    (hc : check_show_questions_dependency q allQs a1 = true) :
    check_show_questions_dependency q allQs a2 = true := by
  simp only [check_show_questions_dependency] at hc ⊢
  split at hc
  · rename_i hempty
    rw [hempty]
    simp
  · rename_i hempty
    simp only [if_neg hempty]
    rw [List.any_eq_true] at hc ⊢
    obtain ⟨pid, hmem, hsome⟩ := hc
    exact ⟨pid, hmem, extends_isSome h pid hsome⟩

theorem evaluate_depends_on_ext {a1 a2 : List (String × Ans)} (h : answers_extends a1 a2)
    (q : Question) (d : DependsOn) (hd : q.depends_on = some d)
    (hsome : d.question_id ≠ "" → (alookup a1 d.question_id).isSome = true)
    (he : evaluate_depends_on q a1 = true) : evaluate_depends_on q a2 = true := by
  unfold evaluate_depends_on at he ⊢
  rw [hd] at he ⊢
  by_cases hid : d.question_id = ""
  · simp [hid]
  · simp only [if_neg hid] at he ⊢
    rw [extends_lookup h d.question_id (hsome hid)]
    exact he

theorem count_pred_mono {a1 a2 : List (String × Ans)} (h : answers_extends a1 a2)
    (q : Question) (allQs : List Question)
    (hp : count_pred q a1 [] allQs = true) : count_pred q a2 [] allQs = true := by
  unfold count_pred at hp ⊢
  simp only [List.contains_nil] at hp ⊢
  rw [if_neg (by simp)] at hp ⊢
  split at hp
  · cases hp
  · rename_i hdepfail
    split
    · rename_i hdepfail2
      exfalso
      cases hd : q.depends_on with
      | none => rw [hd] at hdepfail2; cases hdepfail2
      | some d =>
        rw [hd] at hdepfail hdepfail2
        rw [Bool.or_eq_true] at hdepfail2
        have hdep1 : ¬((d.question_id ≠ "" && (alookup a1 d.question_id).isNone) = true ∨
            (!evaluate_depends_on q a1) = true) := by
          intro hor
          apply hdepfail
          rwa [Bool.or_eq_true]
        push_neg at hdep1
        obtain ⟨hd1a, hd1b⟩ := hdep1
        have he1 : evaluate_depends_on q a1 = true := by
          cases hb : evaluate_depends_on q a1
          · exact absurd (by rw [hb]; rfl) hd1b
          · rfl
        have hsome1 : d.question_id ≠ "" → (alookup a1 d.question_id).isSome = true := by
          intro hne
          cases hs : (alookup a1 d.question_id).isSome
          · exfalso
            apply hd1a
            rw [Bool.and_eq_true]
            refine ⟨by simpa using hne, ?_⟩
            rw [Option.isNone_iff_eq_none]
            cases hv : alookup a1 d.question_id
            · rfl
            · rw [hv] at hs; cases hs
          · rfl
        cases hdepfail2 with
        | inl h2 =>
          rw [Bool.and_eq_true] at h2
          obtain ⟨h2a, h2b⟩ := h2
          have := extends_isSome h d.question_id (hsome1 (by simpa using h2a))
          rw [Option.isNone_iff_eq_none] at h2b
          rw [h2b] at this
          cases this
        | inr h2 =>
          have := evaluate_depends_on_ext h q d hd hsome1 he1
          rw [this] at h2
          cases h2
    · split at hp
      · cases hp
      · rename_i hcondfail
        split
        · rename_i hcondfail2
          exfalso
          rw [Bool.and_eq_true] at hcondfail2
          obtain ⟨hne, hor⟩ := hcondfail2
          have hcond1 : (q.conditions.all fun c => (alookup a1 c.question_id).isSome) = true ∧
              evaluate_conditions q.conditions a1 = true := by
            by_contra hcontra
            apply hcondfail
            rw [Bool.and_eq_true]
            refine ⟨hne, ?_⟩
            rw [Bool.or_eq_true]
            rcases Decidable.em ((q.conditions.all
                fun c => (alookup a1 c.question_id).isSome) = true) with hall | hall
            · right
              rcases Decidable.em (evaluate_conditions q.conditions a1 = true) with he | he
              · exact absurd ⟨hall, he⟩ hcontra
              · simpa using he
            · left
              simpa using hall
          obtain ⟨hall1, he1⟩ := hcond1
          have hall2 : (q.conditions.all fun c => (alookup a2 c.question_id).isSome) = true := by
            rw [List.all_eq_true] at hall1 ⊢
            intro c hc
            exact extends_isSome h c.question_id (hall1 c hc)
          have he2 : evaluate_conditions q.conditions a2 = true := by
            rw [evaluate_conditions_ext h q.conditions hall1]
            exact he1
          rw [Bool.or_eq_true] at hor
          cases hor with
          | inl h2 => rw [hall2] at h2; cases h2
          | inr h2 => rw [he2] at h2; cases h2
        · split at hp
          · cases hp
          · rename_i hshow1
            split
            · rename_i hshow2
              exfalso
              have hc1 : check_show_questions_dependency q allQs a1 = true := by
                cases hb : check_show_questions_dependency q allQs a1
                · exact absurd (by rw [hb]; rfl) hshow1
                · rfl
              have := check_show_ext h q allQs hc1
              rw [this] at hshow2
              cases hshow2
            · rfl

theorem count_loop_mono {a1 a2 : List (String × Ans)} (h : answers_extends a1 a2)
    (allQs : List Question) (qs : List Question) :
    (count_loop a1 [] allQs qs).1 ≤ (count_loop a2 [] allQs qs).1 ∧
    (count_loop a1 [] allQs qs).2 ≤ (count_loop a2 [] allQs qs).2 := by
  induction qs with
  | nil => exact ⟨Nat.le_refl _, Nat.le_refl _⟩
  | cons q rest ih =>
    obtain ⟨ih1, ih2⟩ := ih
    simp only [count_loop]
    by_cases hp1 : count_pred q a1 [] allQs = true
    · rw [hp1, count_pred_mono h q allQs hp1]
      simp only [if_true]
      constructor
      · omega
      · by_cases hs1 : (alookup a1 q.id).isSome = true
        · rw [hs1, extends_isSome h q.id hs1]
          simp only [if_true]
          omega
        · rw [Bool.eq_false_iff.mpr hs1]
          simp only [Bool.false_eq_true, if_false]
          split <;> omega
    · rw [Bool.eq_false_iff.mpr hp1]
      simp only [Bool.false_eq_true, if_false]
      split
      · constructor <;> [skip; skip] <;> first
          | exact Nat.le_trans ih1 (by split <;> omega)
          | exact Nat.le_trans ih2 (by split <;> omega)
      · exact ⟨ih1, ih2⟩

/-- C4 counterexample: extending the empty answer set with A = "Yes" (whose
`on_yes` directive skips C) drops the applicable count from 3 to 2, so the
denominator does decrease. -/
theorem c4_counterexample :
    answers_extends [] [("A", Ans.s "Yes")] ∧
    (count_applicable_questions "ra" [] treeC4).1 = 3 ∧
    (count_applicable_questions "ra" [("A", Ans.s "Yes")] treeC4).1 = 2 := by
  refine ⟨?_, by decide, by decide⟩
  intro k v hv
  simp [alookup] at hv

/-- C4 amended: when no question in the catalog carries an effective
`on_yes`/`on_no` skip directive (so the derived skip list is empty for any
answer set), extending the answer set never decreases the applicable count,
and the answered count is monotone as well (already-answered questions remain
counted). -/
theorem c4_amended (tree : DecisionTree) (ra : String) (a1 a2 : List (String × Ans))
    (hext : answers_extends a1 a2)
    (hskip : ∀ qq ∈ tree.questions, no_skip_directive qq = true) :
    (count_applicable_questions ra a1 tree).1 ≤ (count_applicable_questions ra a2 tree).1 ∧
    (count_applicable_questions ra a1 tree).2 ≤ (count_applicable_questions ra a2 tree).2 := by
  unfold count_applicable_questions
  rw [derive_nil a1 tree hskip, derive_nil a2 tree hskip]
  exact count_loop_mono hext (questions_for tree ra) (questions_for tree ra)

/-- C4 amended, witness: with a directive-free catalog, moving from one answer
to two keeps both counts monotone at a concrete input. -/
theorem c4_amended_witness :
    (count_applicable_questions "ra" [("B", Ans.s "x")] treeW4).1 ≤
      (count_applicable_questions "ra" [("B", Ans.s "x"), ("C", Ans.s "y")] treeW4).1 ∧
    (count_applicable_questions "ra" [("B", Ans.s "x")] treeW4).2 ≤
      (count_applicable_questions "ra" [("B", Ans.s "x"), ("C", Ans.s "y")] treeW4).2 :=
  c4_amended treeW4 "ra" [("B", Ans.s "x")] [("B", Ans.s "x"), ("C", Ans.s "y")]
    (answers_extends_append [("B", Ans.s "x")] [("C", Ans.s "y")]) (by decide)

/-!
C8.  The completion percentage persisted on every answer save.
-/

theorem count_loop_le (answers : List (String × Ans)) (skipped : List String)
    (allQs qs : List Question) :
    (count_loop answers skipped allQs qs).2 ≤ (count_loop answers skipped allQs qs).1 := by
  induction qs with
  | nil => exact Nat.le_refl _
  | cons q rest ih =>
    simp only [count_loop]
    split
    · split <;> omega
    · exact ih

theorem count_applicable_le (ra : String) (answers : List (String × Ans))
    (tree : DecisionTree) :
    (count_applicable_questions ra answers tree).2 ≤
      (count_applicable_questions ra answers tree).1 := by
  unfold count_applicable_questions
  exact count_loop_le _ _ _ _

theorem completion_totals_le (active : List String)
    (allA : List (String × List (String × Ans))) (tree : DecisionTree) :
    (completion_totals active allA tree).2 ≤ (completion_totals active allA tree).1 := by
  induction active with
  | nil => exact Nat.le_refl _
  | cons area rest ih =>
    simp only [completion_totals]
    have := count_applicable_le area ((alookup allA area).getD []) tree
    omega

theorem roundHE_nonneg (x : ℚ) (hx : 0 ≤ x) : 0 ≤ roundHalfEven x := by
  simp only [roundHalfEven]
  have hf : (0 : ℤ) ≤ ⌊x⌋ := Int.floor_nonneg.mpr hx
  split_ifs <;> omega

theorem roundHE_le (x : ℚ) (B : ℤ) (hx : x ≤ (B : ℚ)) : roundHalfEven x ≤ B := by
  simp only [roundHalfEven]
  have hfB : ⌊x⌋ ≤ B := by
    have h2 := Int.floor_le_floor hx
    rwa [Int.floor_intCast] at h2
  have hfl : (⌊x⌋ : ℚ) ≤ x := Int.floor_le x
  split_ifs with h1 h2 h3
  · exact hfB
  · have h5 : (⌊x⌋ : ℚ) < (B : ℚ) := by linarith
    have hZ : ⌊x⌋ < B := by exact_mod_cast h5
    omega
  · exact hfB
  · have hr : x - (⌊x⌋ : ℚ) = 1 / 2 := le_antisymm (not_lt.mp h2) (not_lt.mp h1)
    have h5 : (⌊x⌋ : ℚ) < (B : ℚ) := by linarith
    have hZ : ⌊x⌋ < B := by exact_mod_cast h5
    omega

theorem compute_overall_bounds (active : List String)
    (allA : List (String × List (String × Ans))) (tree : DecisionTree) :
    0 ≤ compute_overall_completion active allA tree ∧
    compute_overall_completion active allA tree ≤ 100 := by
  simp only [compute_overall_completion]
  split_ifs with h
  · have hle := completion_totals_le active allA tree
    set t := completion_totals active allA tree with ht
    have htpos : (0 : ℚ) < (t.1 : ℚ) := by exact_mod_cast h
    have hr0 : (0 : ℚ) ≤ (t.2 : ℚ) / (t.1 : ℚ) := by positivity
    have hr1 : (t.2 : ℚ) / (t.1 : ℚ) ≤ 1 := by
      rw [div_le_one htpos]
      exact_mod_cast hle
    unfold pyRound1
    constructor
    · have h0 : (0 : ℤ) ≤ roundHalfEven ((t.2 : ℚ) / (t.1 : ℚ) * 100 * 10) := by
        apply roundHE_nonneg
        nlinarith
      have : (0 : ℚ) ≤ (roundHalfEven ((t.2 : ℚ) / (t.1 : ℚ) * 100 * 10) : ℚ) := by
        exact_mod_cast h0
      linarith
    · have h1000 : roundHalfEven ((t.2 : ℚ) / (t.1 : ℚ) * 100 * 10) ≤ (1000 : ℤ) := by
        apply roundHE_le
        push_cast
        nlinarith
      have : (roundHalfEven ((t.2 : ℚ) / (t.1 : ℚ) * 100 * 10) : ℚ) ≤ (1000 : ℚ) := by
        exact_mod_cast h1000
      linarith
  · norm_num

theorem question_flow_step3_completion (store : Store) (aid ra : String)
    (answers : List (String × Ans)) (tree : DecisionTree) (k : String) :
    (alookup (question_flow_step3 store aid ra answers tree).2 k).map
        Assessment.completion_percentage =
      (alookup store k).map Assessment.completion_percentage := by
  simp only [question_flow_step3]
  split
  · simp only [alookup_supdate]
    by_cases hk : k = aid
    · simp only [if_pos hk]
      cases alookup store k <;> rfl
    · simp only [if_neg hk]
  · simp only [alookup_supdate]
    by_cases hk : k = aid
    · simp only [if_pos hk]
      cases alookup store k <;> rfl
    · simp only [if_neg hk]

theorem question_flow_save_completion (store1 : Store) (aid ra : String)
    (assessment : Assessment) (ans : Ans) (tree : DecisionTree) :
    ((question_flow_save store1 aid ra assessment ans tree).1).isError = false →
    ∃ active2 view,
      (alookup (question_flow_save store1 aid ra assessment ans tree).2 aid).map
          Assessment.completion_percentage =
        some (compute_overall_completion active2 view tree) := by
  simp only [question_flow_save]
  split
  · intro herr; cases herr
  · split
    · intro herr; cases herr
    · split
      · intro herr; cases herr
      · split
        · intro herr; cases herr
        · rename_i assessment2 heq2
          intro _
          exact ⟨_, _, by
            rw [question_flow_step3_completion, alookup_supdate, if_pos rfl, heq2]
            rfl⟩

/-- C8: the completion percentage persisted by every successful answer save is
a value of `compute_overall_completion` — the sum of the per-area
(applicable, answered) counts with `round((answered/applicable)*100, 1)` —
and always lies in [0, 100]; a zero total applicable count yields exactly 0,
never a division-by-zero error. -/
theorem c8 :
    (∀ (active : List String) (allA : List (String × List (String × Ans)))
        (tree : DecisionTree),
       0 ≤ compute_overall_completion active allA tree ∧
       compute_overall_completion active allA tree ≤ 100 ∧
       ((completion_totals active allA tree).1 = 0 →
          compute_overall_completion active allA tree = 0) ∧
       (0 < (completion_totals active allA tree).1 →
          compute_overall_completion active allA tree =
            pyRound1 (((completion_totals active allA tree).2 : ℚ) /
              ((completion_totals active allA tree).1 : ℚ) * 100))) ∧
    (∀ (store : Store) (aid : String) (raArg : Option String) (ans : Ans)
        (tree : DecisionTree),
       ((question_flow store aid raArg (some ans) tree).1).isError = false →
       ∃ c, (alookup (question_flow store aid raArg (some ans) tree).2 aid).map
             Assessment.completion_percentage = some c ∧
         0 ≤ c ∧ c ≤ 100 ∧
         ∃ active2 view, c = compute_overall_completion active2 view tree) := by
  constructor
  · intro active allA tree
    obtain ⟨h0, h100⟩ := compute_overall_bounds active allA tree
    refine ⟨h0, h100, ?_, ?_⟩
    · intro hz
      simp only [compute_overall_completion]
      rw [if_neg (by omega)]
    · intro hpos
      simp only [compute_overall_completion]
      rw [if_pos (by omega)]
  · intro store aid raArg ans tree herr
    unfold question_flow at herr ⊢
    cases hl : alookup store aid with
    | none =>
      simp only [hl] at herr
      cases herr
    | some assessment =>
      simp only [hl] at herr ⊢
      cases hr : resolve_risk_area assessment raArg with
      | none =>
        simp only [hr] at herr
        cases herr
      | some ra =>
        simp only [hr] at herr ⊢
        obtain ⟨active2, view, hcomp⟩ := question_flow_save_completion _ aid ra assessment
          ans tree herr
        refine ⟨compute_overall_completion active2 view tree, hcomp, ?_, ?_, active2, view,
          rfl⟩
        · exact (compute_overall_bounds active2 view tree).1
        · exact (compute_overall_bounds active2 view tree).2

/-- C8 witness: the no-applicable-questions case yields exactly 0, and a
concrete successful save persists an in-range completion value. -/
theorem c8_witness :
    compute_overall_completion ["zz"] [] ({} : DecisionTree) = 0 ∧
    (∃ c, (alookup (question_flow storeW8 "A8" none (some (Ans.s "fine")) treeW8).2 "A8").map
          Assessment.completion_percentage = some c ∧
       0 ≤ c ∧ c ≤ 100 ∧
       ∃ active2 view, c = compute_overall_completion active2 view treeW8) :=
  ⟨(c8.1 ["zz"] [] ({} : DecisionTree)).2.2.1 (by decide),
   c8.2 storeW8 "A8" none (Ans.s "fine") treeW8 (by decide)⟩

end TRA
